import Mathlib

/-!
Verification development for the Gov-AI intent-routing assistant.

The Python sources (`chatbot.py`, `chatbot_new.py`, `sql_agent.py`) are
shallowly embedded below.  External effects are made explicit parameters:

* the external text model is a value of type `Except Unit String`
  (`Except.error ()` models a raised exception / failed call,
  `Except.ok t` models a reply with text `t`);
* the relational store is a function from a structured call descriptor to
  `Except Unit` of a row list;
* Python `None` is `Option.none`, Python exceptions escaping a function are
  `Except.error`.

String primitives (`strip`, `lower`, `upper`, substring membership) are
re-implemented over `List Char`, restricted to ASCII case folding and ASCII
whitespace, which matches every string the sources manipulate.
-/

/-- ASCII whitespace recognised by Python `str.strip` / regex `\s`
(space, tab, newline, carriage return, vertical tab, form feed). -/
def pyWs (c : Char) : Bool :=
  c == ' ' || c == '\t' || c == '\n' || c == '\r' || c == '\x0b' || c == '\x0c'

/-- ASCII lower-casing of one character, as Python `str.lower` acts on ASCII. -/
def lowerChar (c : Char) : Char :=
  if 'A' ≤ c ∧ c ≤ 'Z' then Char.ofNat (c.toNat + 32) else c

/-- ASCII upper-casing of one character, as Python `str.upper` acts on ASCII. -/
def upperChar (c : Char) : Char :=
  if 'a' ≤ c ∧ c ≤ 'z' then Char.ofNat (c.toNat - 32) else c

/-- Python `str.strip()` on a character list. -/
def stripL (l : List Char) : List Char :=
  ((l.dropWhile pyWs).reverse.dropWhile pyWs).reverse

/-- Python `str.strip()`. -/
def pyStrip (s : String) : String := ⟨stripL s.data⟩

/-- Python `str.lower()`. -/
def lowerS (s : String) : String := ⟨s.data.map lowerChar⟩

/-- Python `str.upper()`. -/
def pyUpperS (s : String) : String := ⟨s.data.map upperChar⟩

/-- Boolean list-front test (Python `str.startswith` on character lists). -/
def isPrefL : List Char → List Char → Bool
  | [], _ => true
  | _ :: _, [] => false
  | a :: as, b :: bs => a == b && isPrefL as bs

/-- Boolean substring test on character lists (Python `needle in haystack`). -/
def isSubL (n : List Char) : List Char → Bool
  | [] => isPrefL n []
  | c :: t => isPrefL n (c :: t) || isSubL n t

/-- Python `needle in haystack` on strings. -/
def substrS (needle hay : String) : Bool := isSubL needle.data hay.data

namespace Chatbot

/- Embedding of `chatbot.py`: the keyword-policy variant. -/

/-- `classify_intent` of `chatbot.py` (lines 14-27): lower-case the input and
test the keyword sets in source order; first hit wins, otherwise `general`. -/
def classify_intent (user_input : String) : String :=
  let u := lowerS user_input
  if ["document", "status", "check", "application"].any (fun w => substrS w u) then
    "check_documents"
  else if ["complaint", "problem", "issue", "file"].any (fun w => substrS w u) then
    "file_complaint"
  else if ["appointment", "schedule", "meeting", "book"].any (fun w => substrS w u) then
    "schedule_appointment"
  else
    "general"

/-- Response of `fetch_documents` (simulated lookup, constant data). -/
def fetch_documents_response : String :=
  "Your documents are approved. Available documents: passport, license"

/-- Response of `file_complaint`. -/
def file_complaint_response : String :=
  "Your complaint has been filed successfully. Complaint ID: COMP-2025-001"

/-- Response of `schedule_appointment`. -/
def schedule_appointment_response : String :=
  "Appointment scheduled successfully. ID: APPT-2025-001 on 2025-08-20 at 10:00 AM"

/-- Response of `general_response`. -/
def general_response : String :=
  "Hello! I'm here to help you with government services. I can help you check documents, file complaints, or schedule appointments."

/-- One turn of the compiled `chatbot.py` workflow: classify, then run the
handler the routing table assigns to the intent.  `classify_intent` only
produces the four mapped labels, so the default arm is unreachable. -/
def run_turn (user_input : String) : String :=
  match classify_intent user_input with
  | "check_documents" => fetch_documents_response
  | "file_complaint" => file_complaint_response
  | "schedule_appointment" => schedule_appointment_response
  | _ => general_response

end Chatbot

/-- Follows the spec's words (§4.1 keyword policy, claim C5), not the source:
service-requirement phrasing is tested first, then generic status words, then
appointment words, then complaint words, then help words; first match wins,
no match gives the catch-all.  The keyword sets are the ones the spec's
priority list refers to (the commented-out fallback of `chatbot_new.py`). -/
def spec_keyword_policy (user_input : String) : String :=
  let u := lowerS user_input
  if ["what documents", "what do i need", "requirements for", "documents for"].any
      (fun w => substrS w u) ∨
     (["document", "documents", "need", "required", "requirements", "paperwork"].any
        (fun w => substrS w u) ∧
      ["passport", "license", "certificate", "registration", "permit"].any
        (fun w => substrS w u)) then
    "service_requirements"
  else if ["status", "check", "application", "my documents"].any (fun w => substrS w u) then
    "check_documents"
  else if ["appointment", "schedule", "meeting", "book", "slot"].any (fun w => substrS w u) then
    "schedule_appointment"
  else if ["complaint", "problem", "issue", "file complaint"].any (fun w => substrS w u) then
    "file_complaint"
  else if ["help", "services", "what can", "how do"].any (fun w => substrS w u) then
    "general_info"
  else
    "general"

namespace ChatbotNew

/- Embedding of `chatbot_new.py`. -/

/-- The label enumeration accepted by `classify_intent` (lines 115-116). -/
def valid_intents : List String :=
  ["service_requirements", "check_documents", "schedule_appointment",
   "file_complaint", "general_info", "general"]

/-- `classify_intent` of `chatbot_new.py` (lines 86-126).  The model call is
the `modelReply` parameter.  On a model exception the `except` block only
prints (the rule-based fallback is commented out) and never assigns the local
`intent`, so the trailing `return` raises `UnboundLocalError`: the function
propagates an exception, modelled as `Except.error ()`. -/
def classify_intent (user_input : String) (modelReply : Except Unit String) :
    Except Unit String :=
  match modelReply with
  | Except.error _ => Except.error ()
  | Except.ok t =>
    let intent := lowerS (pyStrip t)
    Except.ok (if valid_intents.contains intent then intent else "general")

/-- The fixed keyword list of `extract_service_name` (lines 170-175),
in source order. -/
def service_keywords : List String :=
  ["passport", "driving license", "license", "birth certificate",
   "marriage certificate", "business registration", "tax clearance",
   "police clearance", "grama niladhari", "identity card", "nic",
   "death certificate", "divorce certificate", "land registration"]

/-- `extract_service_name` (lines 165-181): return the first listed keyword
occurring in the lower-cased input, else `None`. -/
def extract_service_name (user_input : String) : Option String :=
  let u := lowerS user_input
  service_keywords.find? (fun k => substrS k u)

/-- A structured store call issued by `get_service_requirements`. -/
inductive DbCall where
  | serviceLookup (pattern : String)
  | docsLookup (service_id : Nat)
deriving DecidableEq

/-- Department sub-record of a `service` row. -/
structure ServiceDept where
  title : String
  email : String
  phone_no : String
deriving DecidableEq

/-- A `service` row as selected by `get_service_requirements`. -/
structure ServiceRow where
  service_id : Nat
  title : String
  description : Option String
  department : ServiceDept
deriving DecidableEq

/-- A `required_doc_for_service` row joined with its `document_type`. -/
structure DocRow where
  is_mandatory : Bool
  doc_type : String
deriving DecidableEq

/-- The store as `get_service_requirements` sees it: a connectivity flag and
the two query endpoints; `Except.error` models a raised client exception. -/
structure Db where
  connected : Bool
  services : String → Except Unit (List ServiceRow)
  docs : Nat → Except Unit (List DocRow)

/-- Clarification prompt returned when no service name is recognised
(lines 190-200), transcribed verbatim. -/
def clarificationMsg : String :=
  "I'd be happy to help you find the required documents for a service. \n        \nCould you please specify which service you need information about? For example:\n• Passport application\n• Driving license\n• Birth certificate\n• Marriage certificate\n• Business registration\n• Tax clearance certificate\n\nJust say something like \"What documents do I need for a passport?\" "

/-- Not-found response (lines 215-221). -/
def notFoundMsg (service_name : String) : String :=
  "Sorry, I couldn't find information about \"" ++ service_name ++
  "\" in our database.\n\nGeneral Information:\nYou can contact the nearest Divisional Secretariat or visit www.gov.lk for comprehensive service information.\n\nAvailable Services:\nTry asking about: passport, driving license, birth certificate, marriage certificate, business registration, etc."

/-- Database-error response (lines 268-275). -/
def dbErrorMsg : String :=
  "Unable to retrieve service information at the moment.\n\nAlternative Options:\n• Visit your nearest Divisional Secretariat\n• Call 1919 (Government Information Center)\n• Visit www.gov.lk\n\nPlease try again later or contact the relevant department directly."

/-- Response assembly of `get_service_requirements` for a found service
(lines 234-257). -/
def buildServiceResponse (svc : ServiceRow) (docs : List DocRow) : String :=
  let docPart :=
    if docs.isEmpty then
      "No specific documents found in database. Please contact the department for details.\n"
    else
      String.join (docs.enum.map (fun p =>
        toString (p.1 + 1) ++ ". " ++ p.2.doc_type ++
        (if p.2.is_mandatory then " (Mandatory)" else " (Optional)") ++ "\n"))
  let descr :=
    match svc.description with
    | none => "Contact department for details"
    | some d => if d.data.isEmpty then "Contact department for details" else d
  svc.title ++ "\n\nRequired Documents:\n" ++ docPart ++
  "\nDepartment: " ++ svc.department.title ++
  "\nContact: " ++ svc.department.email ++ " | " ++ svc.department.phone_no ++
  "\n\nService Description: " ++ descr ++
  "\n\nTip: Make sure all documents are original or certified copies, and bring photocopies as well."

/-- `get_service_requirements` (lines 184-279), returning the response text
together with the list of store calls it issued (the remaining `{**state, …}`
threading carries these two values).  A missing client or any client
exception is caught by the `except` block, producing `dbErrorMsg`. -/
def get_service_requirements (db : Db) (user_input : String) :
    String × List DbCall :=
  match extract_service_name user_input with
  | none => (clarificationMsg, [])
  | some service_name =>
    if !db.connected then (dbErrorMsg, [])
    else
      match db.services service_name with
      | Except.error _ => (dbErrorMsg, [DbCall.serviceLookup service_name])
      | Except.ok [] => (notFoundMsg service_name, [DbCall.serviceLookup service_name])
      | Except.ok (svc :: _) =>
        match db.docs svc.service_id with
        | Except.error _ =>
          (dbErrorMsg, [DbCall.serviceLookup service_name, DbCall.docsLookup svc.service_id])
        | Except.ok docs =>
          (buildServiceResponse svc docs,
           [DbCall.serviceLookup service_name, DbCall.docsLookup svc.service_id])

/-- The loop-termination sentinels of the interactive loop (line 496). -/
def isSentinel (u : String) : Bool :=
  u == "exit" || u == "quit" || u == "bye"

/-- The fixed generic apology printed by the top-level `except` (line 524). -/
def apologyMsg : String :=
  "Sorry, I encountered an error. Please try again or call 1919 for assistance."

/-- The prompt printed for an empty input (line 500). -/
def emptyPrompt : String :=
  "Please ask me something about government services."

/-- The interactive loop of `chatbot_new.py` (lines 493-526) over a list of
turns.  Each turn carries the raw line read and the outcome of the one-turn
pipeline (`Except.error ()` models an exception escaping `agent.invoke`).
The returned list holds the bot messages printed, in order. -/
def mainLoop : List (String × Except Unit String) → List String
  | [] => []
  | (rawInput, outcome) :: rest =>
    let t := pyStrip rawInput
    if isSentinel (lowerS t) then []
    else if t.data.isEmpty then emptyPrompt :: mainLoop rest
    else
      (match outcome with
       | Except.ok r => r
       | Except.error _ => apologyMsg) :: mainLoop rest

/-- Workflow nodes of `chatbot_new.py` (lines 443-477). -/
inductive Node where
  | classify
  | service_requirements
  | check_documents
  | schedule_appointment
  | file_complaint
  | general_info
  | general
  | terminal
deriving DecidableEq

/-- The conditional-edge table out of `classify` (lines 459-470). -/
def route : String → Option Node
  | "service_requirements" => some Node.service_requirements
  | "check_documents" => some Node.check_documents
  | "schedule_appointment" => some Node.schedule_appointment
  | "file_complaint" => some Node.file_complaint
  | "general_info" => some Node.general_info
  | "general" => some Node.general
  | _ => none

/-- The static edges to `END` (lines 473-475). -/
def nodeNext : Node → Option Node
  | Node.service_requirements => some Node.terminal
  | Node.check_documents => some Node.terminal
  | Node.schedule_appointment => some Node.terminal
  | Node.file_complaint => some Node.terminal
  | Node.general_info => some Node.terminal
  | Node.general => some Node.terminal
  | _ => none

/-- Which nodes set `response`: every handler of `chatbot_new.py` does. -/
def setsResponse : Node → Bool
  | Node.service_requirements => true
  | Node.check_documents => true
  | Node.schedule_appointment => true
  | Node.file_complaint => true
  | Node.general_info => true
  | Node.general => true
  | _ => false

/-- Fuel-bounded walk along the static edges. -/
def pathFrom : Nat → Node → List Node
  | 0, n => [n]
  | fuel + 1, n =>
    n :: (match nodeNext n with
          | some m => pathFrom fuel m
          | none => [])

/-- One intent label is well routed: the table maps it to a node, the walk
from that node reaches the terminal, visits no node twice, and exactly one
visited node sets the response. -/
def intentOk (label : String) : Bool :=
  match route label with
  | none => false
  | some n =>
    let p := pathFrom 10 n
    p.getLast? == some Node.terminal &&
    (p.filter setsResponse).length == 1 &&
    p.eraseDups.length == p.length

end ChatbotNew

namespace SqlAgent

/- Embedding of `sql_agent.py`. -/

/-- The label enumeration accepted by `classify_intent` (line 106). -/
def valid_intents : List String :=
  ["sql_query", "procedural_info", "status_check", "general"]

/-- `classify_intent` of `sql_agent.py` (lines 73-113): the model reply is
stripped, lower-cased and validated against the enumeration; an invalid reply
or a raised model exception both collapse to `general`. -/
def classify_intent (user_input : String) (modelReply : Except Unit String) : String :=
  match modelReply with
  | Except.error _ => "general"
  | Except.ok t =>
    let intent := lowerS (pyStrip t)
    if valid_intents.contains intent then intent else "general"

/-- Removal of a leading code-fence tag plus following whitespace
(`re.sub` with an anchored pattern, lines 157-158). -/
def dropFenceStart (tag : List Char) (l : List Char) : List Char :=
  if isPrefL tag l then (l.drop tag.length).dropWhile pyWs else l

/-- Removal of a trailing code fence plus trailing whitespace
(`re.sub` with the pattern anchored at the end, line 159). -/
def dropFenceEnd (l : List Char) : List Char :=
  let r := l.reverse.dropWhile pyWs
  if isPrefL "```".data r then (r.drop 3).reverse else l

/-- The cleaning pipeline of `generate_sql_query` (lines 154-160):
strip, remove a leading ```sql fence, a leading ``` fence, a trailing ```
fence, strip again. -/
def cleanSql (s : String) : String :=
  let l0 := stripL s.data
  let l1 := dropFenceStart "```sql".data l0
  let l2 := dropFenceStart "```".data l1
  ⟨stripL (dropFenceEnd l2)⟩

/-- `sql_query.upper().startswith('SELECT')` (line 163). -/
def startsSelectB (q : String) : Bool :=
  isPrefL "SELECT".data (pyUpperS q).data

/-- The denylist of `generate_sql_query` (line 167). -/
def dangerous_keywords : List String :=
  ["DROP", "DELETE", "UPDATE", "INSERT", "ALTER", "CREATE", "TRUNCATE"]

/-- `any(keyword in sql_query.upper() for keyword in dangerous_keywords)`
(line 168). -/
def dangerousB (q : String) : Bool :=
  dangerous_keywords.any (fun k => isSubL k.data (pyUpperS q).data)

/-- Department sub-record of a result row (permissive, field-by-field). -/
structure DeptF where
  title : Option String := none
  email : Option String := none
  phone_no : Option String := none
deriving DecidableEq

/-- A result row as the formatter reads it: a mapping probed field by field;
`none` models an absent key. -/
structure RowF where
  title : Option String := none
  description : Option String := none
  doc_type : Option String := none
  is_mandatory : Option Bool := none
  department : Option DeptF := none
  email : Option String := none
  phone_no : Option String := none
deriving DecidableEq

/-- The mutable request context of `sql_agent.py` (lines 20-27).
`sql_result = none` models Python `None`, `some []` the empty list. -/
structure AgentState where
  user_input : String := ""
  intent : String := ""
  response : String := ""
  sql_query : String := ""
  sql_result : Option (List RowF) := some []
  error : Option String := none
  needs_clarification : Bool := false
deriving DecidableEq

/-- `generate_sql_query` (lines 115-174).  The model call is the
`modelReply` parameter; a raised model exception is caught and recorded as
the generic error.  Validation: the cleaned text must start with SELECT
(case-insensitive) and must not contain a denylisted keyword. -/
def generate_sql_query (modelReply : Except Unit String) (st : AgentState) : AgentState :=
  match modelReply with
  | Except.error _ =>
    { st with error := some "Unable to process your request", sql_query := "" }
  | Except.ok text =>
    let q := cleanSql text
    if !startsSelectB q then
      { st with error := some "Invalid query type", sql_query := "" }
    else if dangerousB q then
      { st with error := some "Query contains forbidden operations", sql_query := "" }
    else
      { st with sql_query := q, error := none }

/-- The pre-built structured store calls of `execute_with_supabase_client`
(lines 196-243), one constructor per branch. -/
inductive StoreCall where
  | serviceReqs (service_name : String)
  | deptServicesFiltered (dept_name : String)
  | deptServicesAll
  | docTypes
  | departments
  | defaultServices
deriving DecidableEq

/-- The `.limit(n)` attached to each structured call in the source:
the service-requirements call (lines 207-209) and the department-filtered
call (lines 217-219) carry none; the others carry 20, 20, 20 and 10. -/
def callLimit : StoreCall → Option Nat
  | StoreCall.serviceReqs _ => none
  | StoreCall.deptServicesFiltered _ => none
  | StoreCall.deptServicesAll => some 20
  | StoreCall.docTypes => some 20
  | StoreCall.departments => some 20
  | StoreCall.defaultServices => some 10

/-- Literal match of a pattern piece at the front of the text. -/
def matchLit : List Char → List Char → Option (List Char)
  | [], rest => some rest
  | _ :: _, [] => none
  | c :: cs, r :: rs => if c == r then matchLit cs rs else none

/-- One anchored attempt of the regex `title\s+ilike\s+'%([^%]+)%'`
(line 204): each quantifier here is forced, so maximal munch is faithful. -/
def matchIlikeAt (l : List Char) : Option (List Char) :=
  (matchLit "title".data l).bind fun r1 =>
  let r2 := r1.dropWhile pyWs
  if r1.length == r2.length then none else
  (matchLit "ilike".data r2).bind fun r3 =>
  let r4 := r3.dropWhile pyWs
  if r3.length == r4.length then none else
  (matchLit "'%".data r4).bind fun r5 =>
  let arg := r5.takeWhile (fun c => c != '%')
  if arg.isEmpty then none else
  match matchLit "%'".data (r5.drop arg.length) with
  | some _ => some arg
  | none => none

/-- `re.search` of the ilike pattern: leftmost successful anchored match. -/
def findIlike : List Char → Option (List Char)
  | [] => none
  | c :: t =>
    match matchIlikeAt (c :: t) with
    | some a => some a
    | none => findIlike t

/-- The branch selection of `execute_with_supabase_client` (lines 196-243):
substring pattern-matching on the lower-cased query text decides which
structured call to issue.  `none` is the fall-through of the first branch
(`service` and `document_type` mentioned but no ilike literal found), where
the Python function runs off the end of the `try` and returns `None`. -/
def chooseCall (sql_query : String) : Option StoreCall :=
  let ql := lowerS sql_query
  if substrS "service" ql && substrS "document_type" ql then
    match findIlike ql.data with
    | some name => some (StoreCall.serviceReqs ⟨name⟩)
    | none => none
  else if substrS "service" ql && substrS "department" ql then
    match findIlike ql.data with
    | some d => some (StoreCall.deptServicesFiltered ⟨d⟩)
    | none => some StoreCall.deptServicesAll
  else if substrS "document_type" ql then some StoreCall.docTypes
  else if substrS "department" ql then some StoreCall.departments
  else some StoreCall.defaultServices

/-- The store: a structured call either returns rows or raises. -/
def Store := StoreCall → Except Unit (List RowF)

/-- A store whose every call raises (connectivity lost mid-call). -/
def failingStore : Store := fun _ => Except.error ()

/-- `execute_with_supabase_client` (lines 196-243): issue the selected call;
any raised client exception is caught and turned into `[]`; the fall-through
returns Python `None`, modelled as `none`. -/
def execute_with_supabase_client (store : Store) (sql_query : String) :
    Option (List RowF) :=
  match chooseCall sql_query with
  | none => none
  | some c =>
    match store c with
    | Except.ok data => some data
    | Except.error _ => some []

/-- `execute_sql_query` (lines 176-194).  `client = none` models
`get_supabase_client()` returning `None`; an empty query or a set error
skips execution and returns the state unchanged. -/
def execute_sql_query (client : Option Store) (st : AgentState) : AgentState :=
  if st.sql_query.data.isEmpty || st.error.isSome then st
  else
    match client with
    | none =>
      { st with error := some "Database connection failed", sql_result := some [] }
    | some store =>
      { st with sql_result := execute_with_supabase_client store st.sql_query,
                error := none }

/-- The double-encoded bullet sequence present in `sql_agent.py`'s template
strings (bytes C3 A2 E2 82 AC C2 A2, three characters). -/
def bul : String := "â€¢"

/-- The upstream-error template of `format_sql_response` (lines 252-262). -/
def errorTemplate : String :=
  "I'm sorry, I couldn't process your request at the moment.\n\nYou can try:\n"
  ++ bul ++ " Rephrasing your question in a different way\n"
  ++ bul ++ " Being more specific about what you're looking for\n"
  ++ bul ++ " Contacting our helpline at 1919 for immediate assistance\n\nAlternative ways to get help:\n"
  ++ bul ++ " Visit your nearest Divisional Secretariat office\n"
  ++ bul ++ " Check our official website at www.gov.lk\n"
  ++ bul ++ " Call the Government Information Center at 1919"

/-- The no-results template of `format_sql_response` (lines 266-276). -/
def noResultsMsg : String :=
  "I couldn't find specific information for your query.\n\nTry asking about:\n"
  ++ bul ++ " \"What documents do I need for passport application?\"\n"
  ++ bul ++ " \"What services does the Health Department offer?\"\n"
  ++ bul ++ " \"Show me all available government services\"\n"
  ++ bul ++ " \"What are the requirements for driving license?\"\n\nNeed immediate help?\n"
  ++ bul ++ " Call 1919 (Government Information Center)\n"
  ++ bul ++ " Visit www.gov.lk for comprehensive information"

/-- Header of the deterministic fallback rendering (line 307). -/
def fallbackHeader : String := "Here's what I found for you:\n\n"

/-- The truncation note of the fallback rendering (line 342). -/
def fallbackNote (n : Nat) : String :=
  "... and " ++ toString n ++ " more results available.\n\n"

/-- The fixed closing contact block of the fallback rendering (lines 344-347). -/
def closingBlock : String :=
  "Need more information?\n"
  ++ bul ++ " Call 1919 (Government Information Center)\n"
  ++ bul ++ " Visit www.gov.lk\n"
  ++ bul ++ " Contact the relevant department directly"

/-- Rendering of one row by the fallback formatter (lines 310-339),
field by field with presence and truthiness checks as in the source. -/
def renderItem (i : Nat) (item : RowF) : String :=
  toString i ++ ". "
  ++ (match item.title with
      | some t => t ++ "\n"
      | none => "")
  ++ (match item.description with
      | some d => if d.data.isEmpty then "" else "   Description: " ++ d ++ "\n"
      | none => "")
  ++ (match item.doc_type with
      | some dt =>
        "   Document: " ++ dt ++
        (if item.is_mandatory.getD true then " (Required)" else " (Optional)") ++ "\n"
      | none => "")
  ++ (match item.department with
      | some dept =>
        "   Department: " ++ dept.title.getD "N/A" ++ "\n"
        ++ (match dept.email with
            | some e => if e.data.isEmpty then "" else "   Contact: " ++ e
            | none => "")
        ++ (match dept.phone_no with
            | some p => if p.data.isEmpty then "" else " | " ++ p
            | none => "")
        ++ "\n"
      | none => "")
  ++ (match item.email with
      | some e => if e.data.isEmpty then "" else "   Email: " ++ e ++ "\n"
      | none => "")
  ++ (match item.phone_no with
      | some p => if p.data.isEmpty then "" else "   Phone: " ++ p ++ "\n"
      | none => "")
  ++ "\n"

/-- The deterministic fallback renderer (lines 305-347): header, the first
five rows enumerated from 1, the truncation note when more than five rows
exist, and the fixed closing contact block. -/
def formatFallback (rows : List RowF) : String :=
  fallbackHeader
  ++ String.join ((rows.take 5).enum.map (fun p => renderItem (p.1 + 1) p.2))
  ++ (if 5 < rows.length then fallbackNote (rows.length - 5) else "")
  ++ closingBlock

/-- `format_sql_response` (lines 245-349): error template on a set error,
no-results template on `None` or an empty row list, otherwise the model's
formatted reply, falling back to the deterministic renderer when the model
call raises. -/
def format_sql_response (modelReply : Except Unit String) (st : AgentState) : AgentState :=
  match st.error with
  | some _ => { st with response := errorTemplate }
  | none =>
    match st.sql_result with
    | none => { st with response := noResultsMsg }
    | some [] => { st with response := noResultsMsg }
    | some rows =>
      match modelReply with
      | Except.ok t => { st with response := pyStrip t }
      | Except.error _ => { st with response := formatFallback rows }

/-- Workflow nodes of `sql_agent.py` (lines 489-525). -/
inductive Node where
  | classify
  | generate_sql
  | execute_sql
  | format_response
  | procedural_info
  | status_check
  | terminal
deriving DecidableEq

/-- The conditional-edge table out of `classify` (lines 505-514). -/
def route : String → Option Node
  | "sql_query" => some Node.generate_sql
  | "procedural_info" => some Node.procedural_info
  | "status_check" => some Node.status_check
  | "general" => some Node.procedural_info
  | _ => none

/-- The static edges (lines 517-523). -/
def nodeNext : Node → Option Node
  | Node.generate_sql => some Node.execute_sql
  | Node.execute_sql => some Node.format_response
  | Node.format_response => some Node.terminal
  | Node.procedural_info => some Node.terminal
  | Node.status_check => some Node.terminal
  | _ => none

/-- Which nodes set `response`: `format_response`, `procedural_info` and
`status_check` always do; `generate_sql` and `execute_sql` never do. -/
def setsResponse : Node → Bool
  | Node.format_response => true
  | Node.procedural_info => true
  | Node.status_check => true
  | _ => false

/-- Fuel-bounded walk along the static edges. -/
def pathFrom : Nat → Node → List Node
  | 0, n => [n]
  | fuel + 1, n =>
    n :: (match nodeNext n with
          | some m => pathFrom fuel m
          | none => [])

/-- One intent label is well routed: the table maps it to a node, the walk
from that node reaches the terminal, visits no node twice, and exactly one
visited node sets the response. -/
def intentOk (label : String) : Bool :=
  match route label with
  | none => false
  | some n =>
    let p := pathFrom 10 n
    p.getLast? == some Node.terminal &&
    (p.filter setsResponse).length == 1 &&
    p.eraseDups.length == p.length

end SqlAgent

/-- The stages of `chatbot.py`'s keyword chain in source order, as a priority
list (used to state the first-match-wins property). -/
def chatbotStages : List (List String × String) :=
  [(["document", "status", "check", "application"], "check_documents"),
   (["complaint", "problem", "issue", "file"], "file_complaint"),
   (["appointment", "schedule", "meeting", "book"], "schedule_appointment")]

/-- The default-initialised request context of `sql_agent.py`
(the dictionary passed to `agent.invoke`, lines 558-566). -/
def st0 : SqlAgent.AgentState := {}

/-- A six-row result list (witness input for the truncation property). -/
def sixRows : List SqlAgent.RowF :=
  [{ title := some "Passport Application" }, { title := some "Driving License" },
   { title := some "Birth Certificate" }, { title := some "Marriage Certificate" },
   { title := some "Business Registration" }, { title := some "Tax Clearance" }]

/-- A connected store answering every call with no rows. -/
def dbUnit : ChatbotNew.Db :=
  ⟨true, fun _ => Except.ok [], fun _ => Except.ok []⟩

/-- A synthesized query of the service-requirements shape (counterexample
input for the executor-cap claim). -/
def c8query : String :=
  "SELECT s.title FROM service s JOIN document_type dt WHERE s.title ILIKE '%passport%'"

/- Helper lemmas about the substring primitives. -/

theorem data_append (s t : String) : (s ++ t).data = s.data ++ t.data := by
  cases s; cases t; rfl

theorem isPrefL_append_self (n b : List Char) : isPrefL n (n ++ b) = true := by
  induction n with
  | nil => rfl
  | cons c t ih => simp [isPrefL, ih]

theorem isSubL_nil_needle (l : List Char) : isSubL [] l = true := by
  cases l <;> rfl

theorem isSubL_append_self (n b : List Char) : isSubL n (n ++ b) = true := by
  cases n with
  | nil => exact isSubL_nil_needle b
  | cons c t =>
    have h := isPrefL_append_self (c :: t) b
    rw [List.cons_append] at h
    simp [isSubL, h]

theorem isSubL_append (a n b : List Char) : isSubL n (a ++ (n ++ b)) = true := by
  induction a with
  | nil => exact isSubL_append_self n b
  | cons c t ih => simp [isSubL, ih]

theorem isSubL_concat_mid (A B C D : String) :
    isSubL C.data (A ++ B ++ C ++ D).data = true := by
  have h : (A ++ B ++ C ++ D).data = (A.data ++ B.data) ++ (C.data ++ D.data) := by
    simp [data_append, List.append_assoc]
  rw [h]
  exact isSubL_append (A.data ++ B.data) C.data D.data

/- Claim theorems. -/

/-- Claim C1 (code bug).  The claim says every classifier error collapses to
the catch-all label `general`.  `sql_agent.py`'s `classify_intent` does so,
but in `chatbot_new.py` the `except` block never assigns `intent` (the
rule-based fallback is commented out), so after a model exception the
trailing `return` raises `UnboundLocalError`: on the failing input the
classifier propagates an exception instead of returning `general`. -/
theorem c1_classifier_error_behaviour :
    ChatbotNew.classify_intent "hello" (Except.error ()) = Except.error () ∧
    SqlAgent.classify_intent "hello" (Except.error ()) = "general" :=
  ⟨rfl, rfl⟩

/-- Claim C2 (confirmed).  Whenever the synthesized text, after code-fence
stripping and trimming, does not start with SELECT (case-insensitive), the
synthesizer records the invalid-query error with an empty query string, and
the executor returns that state unchanged for any client. -/
theorem c2_invalid_query_skips_execution (raw : String) (st : SqlAgent.AgentState)
    (client : Option SqlAgent.Store)
    (h : SqlAgent.startsSelectB (SqlAgent.cleanSql raw) = false) :
    SqlAgent.generate_sql_query (Except.ok raw) st =
      { st with error := some "Invalid query type", sql_query := "" } ∧
    SqlAgent.execute_sql_query client (SqlAgent.generate_sql_query (Except.ok raw) st) =
      SqlAgent.generate_sql_query (Except.ok raw) st := by
  have h1 : SqlAgent.generate_sql_query (Except.ok raw) st =
      { st with error := some "Invalid query type", sql_query := "" } := by
    simp [SqlAgent.generate_sql_query, h]
  refine ⟨h1, ?_⟩
  rw [h1]
  simp [SqlAgent.execute_sql_query]

/-- Claim C2's witness: the property at the concrete reply `SHOW TABLES FROM db`. -/
theorem c2_witness :
    SqlAgent.startsSelectB (SqlAgent.cleanSql "SHOW TABLES FROM db") = false ∧
    (SqlAgent.generate_sql_query (Except.ok "SHOW TABLES FROM db") st0 =
       { st0 with error := some "Invalid query type", sql_query := "" } ∧
     SqlAgent.execute_sql_query none
         (SqlAgent.generate_sql_query (Except.ok "SHOW TABLES FROM db") st0) =
       SqlAgent.generate_sql_query (Except.ok "SHOW TABLES FROM db") st0) :=
  ⟨by decide, c2_invalid_query_skips_execution "SHOW TABLES FROM db" st0 none (by decide)⟩

/-- Claim C3's counterexample: the reply `DROP TABLE users` contains a
denylisted keyword, yet the synthesizer reports the invalid-query error, not
the forbidden-operation error, because the SELECT-front check runs first. -/
theorem c3_counterexample :
    SqlAgent.dangerousB (SqlAgent.cleanSql "DROP TABLE users") = true ∧
    SqlAgent.generate_sql_query (Except.ok "DROP TABLE users") st0 =
      { st0 with error := some "Invalid query type", sql_query := "" } ∧
    (some "Invalid query type" : Option String) ≠ some "Query contains forbidden operations" :=
  ⟨by decide, by decide, by decide⟩

/-- Claim C3 as amended: the forbidden-operation error is reported for text
that passes the SELECT-front check and contains a denylisted keyword; text
failing the SELECT-front check gets the invalid-query error first. -/
theorem c3_amended_forbidden_after_select_check (raw : String) (st : SqlAgent.AgentState)
    (h1 : SqlAgent.startsSelectB (SqlAgent.cleanSql raw) = true)
    (h2 : SqlAgent.dangerousB (SqlAgent.cleanSql raw) = true) :
    SqlAgent.generate_sql_query (Except.ok raw) st =
      { st with error := some "Query contains forbidden operations", sql_query := "" } := by
  simp [SqlAgent.generate_sql_query, h1, h2]

/-- Claim C3's witness: the amended property at a SELECT-fronted reply
containing DROP. -/
theorem c3_witness :
    SqlAgent.startsSelectB (SqlAgent.cleanSql "SELECT 1; DROP TABLE t") = true ∧
    SqlAgent.dangerousB (SqlAgent.cleanSql "SELECT 1; DROP TABLE t") = true ∧
    SqlAgent.generate_sql_query (Except.ok "SELECT 1; DROP TABLE t") st0 =
      { st0 with error := some "Query contains forbidden operations", sql_query := "" } :=
  ⟨by decide, by decide,
   c3_amended_forbidden_after_select_check "SELECT 1; DROP TABLE t" st0 (by decide) (by decide)⟩

/-- Claim C4 (confirmed).  A turn whose pipeline raises is answered by the
fixed generic apology and the loop continues with the remaining turns; and
the `chatbot.py` one-turn pipeline is a total function into its four fixed
responses, so no turn of that variant can raise at all. -/
theorem c4_loop_catches_and_continues (rawInput : String)
    (rest : List (String × Except Unit String))
    (h1 : ChatbotNew.isSentinel (lowerS (pyStrip rawInput)) = false)
    (h2 : (pyStrip rawInput).data.isEmpty = false) :
    ChatbotNew.mainLoop ((rawInput, Except.error ()) :: rest) =
      ChatbotNew.apologyMsg :: ChatbotNew.mainLoop rest ∧
    ∀ s : String, Chatbot.run_turn s ∈
      [Chatbot.fetch_documents_response, Chatbot.file_complaint_response,
       Chatbot.schedule_appointment_response, Chatbot.general_response] := by
  constructor
  · simp [ChatbotNew.mainLoop, h1, h2]
  · intro s
    unfold Chatbot.run_turn
    split <;> simp

/-- Claim C4's witness: the property at the concrete turn `hello`. -/
theorem c4_witness :
    ChatbotNew.isSentinel (lowerS (pyStrip "hello")) = false ∧
    (pyStrip "hello").data.isEmpty = false ∧
    (ChatbotNew.mainLoop [("hello", Except.error ())] =
       ChatbotNew.apologyMsg :: ChatbotNew.mainLoop [] ∧
     ∀ s : String, Chatbot.run_turn s ∈
       [Chatbot.fetch_documents_response, Chatbot.file_complaint_response,
        Chatbot.schedule_appointment_response, Chatbot.general_response]) :=
  ⟨by decide, by decide, c4_loop_catches_and_continues "hello" [] (by decide) (by decide)⟩

/-- Claim C5's counterexample: on paradigmatic service-requirement phrasing
the claimed priority order (spec policy) yields the service-requirements
label, but `chatbot.py`'s classifier yields `check_documents`: its first
stage is the document/status words, and it has no service-requirement stage. -/
theorem c5_counterexample :
    spec_keyword_policy "what documents do i need for a passport" = "service_requirements" ∧
    Chatbot.classify_intent "what documents do i need for a passport" = "check_documents" ∧
    ("service_requirements" : String) ≠ "check_documents" :=
  ⟨by decide, by decide, by decide⟩

/-- Claim C5 as amended: the keyword policy lower-cases the input and tests
the keyword sets in source order — document/status words, then complaint
words, then appointment words — first match wins, no match gives `general`;
there is no service-requirement stage and no help stage. -/
theorem c5_amended_keyword_priority (input : String) :
    Chatbot.classify_intent input =
      ((chatbotStages.find? (fun st => st.1.any (fun w => substrS w (lowerS input)))).map
        Prod.snd).getD "general" := by
  cases h1 : ["document", "status", "check", "application"].any
      (fun w => substrS w (lowerS input)) <;>
  cases h2 : ["complaint", "problem", "issue", "file"].any
      (fun w => substrS w (lowerS input)) <;>
  cases h3 : ["appointment", "schedule", "meeting", "book"].any
      (fun w => substrS w (lowerS input)) <;>
  simp [Chatbot.classify_intent, chatbotStages, List.find?, h1, h2, h3]

/-- Claim C6's counterexample: `i need a passport` contains the service
keyword `passport` and the requirement keyword `need`, yet the keyword
classifier returns `general`, not a service-requirements label. -/
theorem c6_counterexample :
    Chatbot.classify_intent "i need a passport" = "general" ∧
    substrS "passport" (lowerS "i need a passport") = true ∧
    substrS "need" (lowerS "i need a passport") = true ∧
    ("general" : String) ≠ "service_requirements" :=
  ⟨by decide, by decide, by decide, by decide⟩

/-- Claim C6 as amended: the `chatbot.py` keyword classifier has no
service-requirements label at all — no input is ever assigned one; inputs
with a service keyword and a requirement keyword fall through its three
keyword stages (to `general` when none of those keywords occur). -/
theorem c6_amended_never_service_requirements (input : String) :
    Chatbot.classify_intent input ≠ "service_requirements" := by
  simp only [Chatbot.classify_intent]
  split
  · decide
  · split
    · decide
    · split
      · decide
      · decide

/-- Claim C7 (confirmed).  On more than five rows the deterministic fallback
renderer emits the header, the renderings of exactly the first five rows,
the truncation note counting `len(rows) - 5` remaining rows, and the fixed
closing contact block; the note occurs as a substring of the response. -/
theorem c7_fallback_truncation (rows : List SqlAgent.RowF)
    (h : 5 < rows.length) :
    SqlAgent.formatFallback rows =
      SqlAgent.fallbackHeader
      ++ String.join ((rows.take 5).enum.map (fun p => SqlAgent.renderItem (p.1 + 1) p.2))
      ++ SqlAgent.fallbackNote (rows.length - 5)
      ++ SqlAgent.closingBlock ∧
    isSubL (SqlAgent.fallbackNote (rows.length - 5)).data
      (SqlAgent.formatFallback rows).data = true := by
  have h1 : SqlAgent.formatFallback rows =
      SqlAgent.fallbackHeader
      ++ String.join ((rows.take 5).enum.map (fun p => SqlAgent.renderItem (p.1 + 1) p.2))
      ++ SqlAgent.fallbackNote (rows.length - 5)
      ++ SqlAgent.closingBlock := by
    simp [SqlAgent.formatFallback, h]
  refine ⟨h1, ?_⟩
  rw [h1]
  exact isSubL_concat_mid _ _ _ _

/-- Claim C7's witness: the property at a concrete six-row list. -/
theorem c7_witness :
    5 < sixRows.length ∧
    (SqlAgent.formatFallback sixRows =
       SqlAgent.fallbackHeader
       ++ String.join ((sixRows.take 5).enum.map (fun p => SqlAgent.renderItem (p.1 + 1) p.2))
       ++ SqlAgent.fallbackNote (sixRows.length - 5)
       ++ SqlAgent.closingBlock ∧
     isSubL (SqlAgent.fallbackNote (sixRows.length - 5)).data
       (SqlAgent.formatFallback sixRows).data = true) :=
  ⟨by decide, c7_fallback_truncation sixRows (by decide)⟩

/-- Claim C8's counterexample: the service-requirements branch issues its
structured call with no result cap (the claim says every branch applies
one), and a failing store call yields an empty row list with no error
recorded for the formatter (the claim says the error state is recorded). -/
theorem c8_counterexample :
    SqlAgent.chooseCall c8query = some (SqlAgent.StoreCall.serviceReqs "passport") ∧
    SqlAgent.callLimit (SqlAgent.StoreCall.serviceReqs "passport") = none ∧
    SqlAgent.execute_with_supabase_client SqlAgent.failingStore c8query = some [] ∧
    (SqlAgent.execute_sql_query (some SqlAgent.failingStore)
        { st0 with sql_query := c8query }).error = none ∧
    (SqlAgent.execute_sql_query (some SqlAgent.failingStore)
        { st0 with sql_query := c8query }).sql_result = some [] :=
  ⟨by decide, rfl, by decide, by decide, by decide⟩

/-- Claim C8 as amended: the executor picks one of six pre-built calls by
substring matching; the document-type, department, unfiltered
department-services and default branches carry caps (20, 20, 20, 10) while
the service-requirements and filtered department-services calls carry none;
with a failing store every branch yields an empty (or absent) row list and
nothing raises; a missing client records the connection error with an empty
row list; a present client stores the branch result and clears the error. -/
theorem c8_amended_executor_behaviour (q : String) (st : SqlAgent.AgentState)
    (hq : st.sql_query.data.isEmpty = false) (he : st.error = none) :
    (∀ c : SqlAgent.StoreCall,
       (SqlAgent.callLimit c).isSome = true ∨
       (∃ n, c = SqlAgent.StoreCall.serviceReqs n) ∨
       (∃ n, c = SqlAgent.StoreCall.deptServicesFiltered n)) ∧
    (SqlAgent.execute_with_supabase_client SqlAgent.failingStore q = none ∨
     SqlAgent.execute_with_supabase_client SqlAgent.failingStore q = some []) ∧
    SqlAgent.execute_sql_query none st =
      { st with error := some "Database connection failed", sql_result := some [] } ∧
    (∀ store : SqlAgent.Store,
       SqlAgent.execute_sql_query (some store) st =
         { st with sql_result := SqlAgent.execute_with_supabase_client store st.sql_query,
                   error := none }) := by
  refine ⟨?_, ?_, ?_, ?_⟩
  · intro c
    cases c with
    | serviceReqs n => exact Or.inr (Or.inl ⟨n, rfl⟩)
    | deptServicesFiltered n => exact Or.inr (Or.inr ⟨n, rfl⟩)
    | deptServicesAll => exact Or.inl rfl
    | docTypes => exact Or.inl rfl
    | departments => exact Or.inl rfl
    | defaultServices => exact Or.inl rfl
  · cases hc : SqlAgent.chooseCall q <;>
      simp [SqlAgent.execute_with_supabase_client, hc, SqlAgent.failingStore]
  · simp [SqlAgent.execute_sql_query, hq, he]
  · intro store
    simp [SqlAgent.execute_sql_query, hq, he]

/-- Claim C8's witness: the amended property at the concrete query. -/
theorem c8_witness :
    (({ st0 with sql_query := c8query } : SqlAgent.AgentState).sql_query.data.isEmpty = false) ∧
    (({ st0 with sql_query := c8query } : SqlAgent.AgentState).error = none) ∧
    ((∀ c : SqlAgent.StoreCall,
        (SqlAgent.callLimit c).isSome = true ∨
        (∃ n, c = SqlAgent.StoreCall.serviceReqs n) ∨
        (∃ n, c = SqlAgent.StoreCall.deptServicesFiltered n)) ∧
     (SqlAgent.execute_with_supabase_client SqlAgent.failingStore c8query = none ∨
      SqlAgent.execute_with_supabase_client SqlAgent.failingStore c8query = some []) ∧
     SqlAgent.execute_sql_query none { st0 with sql_query := c8query } =
       { ({ st0 with sql_query := c8query } : SqlAgent.AgentState) with
           error := some "Database connection failed", sql_result := some [] } ∧
     (∀ store : SqlAgent.Store,
        SqlAgent.execute_sql_query (some store) { st0 with sql_query := c8query } =
          { ({ st0 with sql_query := c8query } : SqlAgent.AgentState) with
              sql_result := SqlAgent.execute_with_supabase_client store c8query,
              error := none })) :=
  ⟨by decide, by decide,
   c8_amended_executor_behaviour c8query { st0 with sql_query := c8query }
     (by decide) (by decide)⟩

/-- Claim C9 (confirmed).  Both routing tables are static and total over
their label enumerations (the catch-all included); from every routed node
the walk along the static edges reaches the terminal without revisiting a
node, and exactly one node on the walk sets the response. -/
theorem c9_routing_total_and_terminating :
    (SqlAgent.valid_intents.all SqlAgent.intentOk &&
     ChatbotNew.valid_intents.all ChatbotNew.intentOk) = true := by decide

/-- Claim C10 (confirmed).  `extract_service_name` returns the first listed
keyword occurring in the lower-cased input — `driving license` wins over
`license` by list order — and returns none exactly when no listed keyword
occurs, in which case `get_service_requirements` answers with the fixed
clarification prompt and issues no store call. -/
theorem c10_extract_and_clarification (input : String) (db : ChatbotNew.Db) :
    (ChatbotNew.extract_service_name input = none ↔
      ∀ k ∈ ChatbotNew.service_keywords, ¬ substrS k (lowerS input) = true) ∧
    (ChatbotNew.extract_service_name input = none →
      ChatbotNew.get_service_requirements db input = (ChatbotNew.clarificationMsg, [])) ∧
    ChatbotNew.extract_service_name "i lost my driving license" = some "driving license" := by
  refine ⟨?_, ?_, by decide⟩
  · simp only [ChatbotNew.extract_service_name]
    exact List.find?_eq_none
  · intro h
    simp [ChatbotNew.get_service_requirements, h]

/-- Claim C10's witness: the property at the concrete input `good morning`
(no listed keyword occurs). -/
theorem c10_witness :
    ChatbotNew.extract_service_name "good morning" = none ∧
    ChatbotNew.get_service_requirements dbUnit "good morning" =
      (ChatbotNew.clarificationMsg, []) :=
  ⟨by decide, (c10_extract_and_clarification "good morning" dbUnit).2.1 (by decide)⟩
